import Mathlib

/-!
Shallow embedding of `src/python/pdf_service.py` (the PDF parsing service of
localrag-go) and proofs about its specification.

Modelling conventions:
- Python byte strings are `List Nat`.
- A Python dict serialised by `json.dumps` is an insertion-ordered
  association list `List (String × JVal)`.
- A Python function that may raise is `Except String α`, the error carrying
  `str(e)` of the raised exception.
- The backing PDF library (pypdf or pdfplumber) is external to the
  repository; it is modelled as an oracle `PdfLib`: opening a byte stream
  either raises or yields the list of page objects, and each page's
  `extract_text()` either raises or yields a string (`""` also stands for
  the `None` that pdfplumber may return, since the source only tests
  truthiness `if text:`).
-/

namespace PdfService

/-- A JSON value as produced by the service: the dicts it serialises only
contain strings, non-negative integers and `null`. -/
inductive JVal where
  | str (s : String)
  | num (n : Nat)
  | null
deriving DecidableEq, Repr

/-- Python truthiness of the values that can appear in a result dict
(`result["error"]` is tested with `and`). -/
def truthy : JVal → Bool
  | .str s => s ≠ ""
  | .num n => n ≠ 0
  | .null => false

/-- `k in d` / `d[k]` on the ordered dict model: first binding of key `k`. -/
def lookupKey (d : List (String × JVal)) (k : String) : Option JVal :=
  (d.find? (fun p => p.1 = k)).map Prod.snd

/-- The key sequence of a dict, in insertion order. -/
def keysOf (d : List (String × JVal)) : List String :=
  d.map Prod.fst

/-- Whitespace as stripped by Python `str.strip()`; the model covers the
ASCII whitespace code points (further Unicode space code points behave the
same way and are not distinguished by any claim). -/
def isPySpace (c : Char) : Bool :=
  c = ' ' || c = '\t' || c = '\n' || c = '\r' || c = '\x0b' || c = '\x0c'

/-- Strip `isPySpace` characters from both ends of a character list. -/
def stripList (cs : List Char) : List Char :=
  ((cs.dropWhile isPySpace).reverse.dropWhile isPySpace).reverse

/-- Python `str.strip()` with no argument. -/
def pyStrip (s : String) : String :=
  ⟨stripList s.toList⟩

/-- Python `sep.join(parts)`. -/
def joinSep (sep : String) : List String → String
  | [] => ""
  | [x] => x
  | x :: y :: xs => x ++ sep ++ joinSep sep (y :: xs)

/-- Oracle for the selected backing PDF library: `openDoc` models
`pypdf.PdfReader(io.BytesIO(b))` / `pdfplumber.open(io.BytesIO(b))`
followed by reading the page list — it raises (`.error msg` with
`msg = str(e)`) or yields one entry per page, each entry modelling that
page's `extract_text()` call, which itself raises or yields a string. -/
structure PdfLib where
  openDoc : List Nat → Except String (List (Except String String))

/-- The page loop shared by both adapters: visit pages in order, let any
per-page exception propagate, and keep only truthy (non-empty) texts. -/
def collectParts : List (Except String String) → Except String (List String)
  | [] => .ok []
  | e :: rest => do
    let t ← e
    let ts ← collectParts rest
    return (if t = "" then ts else t :: ts)

/-- `extract_text_pypdf(pdf_bytes)`: open the reader, count the pages,
extract each page's text, skip falsy texts, join with a double
line-break. Returns `(joined_text, pages)` or propagates the exception. -/
def extract_text_pypdf (lib : PdfLib) (pdf_bytes : List Nat) :
    Except String (String × Nat) := do
  let pgs ← lib.openDoc pdf_bytes
  let pages := pgs.length
  let text_parts ← collectParts pgs
  return (joinSep "\n\n" text_parts, pages)

/-- `extract_text_pdfplumber(pdf_bytes)`: same observable behaviour as the
pypdf adapter — open, count pages, extract per page skipping falsy texts,
join with a double line-break. -/
def extract_text_pdfplumber (lib : PdfLib) (pdf_bytes : List Nat) :
    Except String (String × Nat) := do
  let pgs ← lib.openDoc pdf_bytes
  let pages := pgs.length
  let text_parts ← collectParts pgs
  return (joinSep "\n\n" text_parts, pages)

/-- `extract_text(pdf_bytes)`: dispatch on the immutable `PDF_LIBRARY`
selection flag (`sel`), guard the whole extraction with `try/except`, and
build the result dict in the source's key order. -/
def extract_text (sel : Option String) (lib : PdfLib) (pdf_bytes : List Nat) :
    List (String × JVal) :=
  match sel with
  | none =>
    [("error", .str "No PDF library installed"), ("text", .str ""), ("pages", .num 0)]
  | some s =>
    match (if s = "pypdf" then extract_text_pypdf lib pdf_bytes
           else extract_text_pdfplumber lib pdf_bytes) with
    | .ok (text, pages) =>
      [("text", .str (pyStrip text)), ("pages", .num pages), ("library", .str s)]
    | .error e =>
      [("error", .str e), ("text", .str ""), ("pages", .num 0)]

/-- Python `int(s)` on a string, as applied to the Content-Length header:
optional surrounding whitespace, optional sign, at least one decimal digit.
Any other string raises `ValueError` (modelled with Python's message text).
(Underscore digit grouping, accepted by CPython, is outside the model; no
claim depends on it.) -/
def pyInt (s : String) : Except String Int :=
  let q : String := ⟨['\x27']⟩
  let digitsVal (ds : List Char) : Except String Nat :=
    if ds ≠ [] ∧ ds.all Char.isDigit then
      .ok (ds.foldl (fun acc c => acc * 10 + (c.toNat - '0'.toNat)) 0)
    else .error ("invalid literal for int() with base 10: " ++ q ++ s ++ q)
  match stripList s.toList with
  | '+' :: ds => (digitsVal ds).map Int.ofNat
  | '-' :: ds => (digitsVal ds).map (fun n => -(Int.ofNat n))
  | ds => (digitsVal ds).map Int.ofNat

/-- `int(self.headers.get('Content-Length', 0))`: an absent header defaults
to the integer `0`; a present header is a string fed to `int()`, which may
raise. -/
def readContentLength (header : Option String) : Except String Int :=
  match header with
  | none => .ok 0
  | some s => pyInt s

/-- `self.rfile.read(n)`: at most `n` bytes of the connection's body; a
negative size reads to end of stream (buffered-reader semantics). -/
def rfileRead (body : List Nat) (n : Int) : List Nat :=
  if n < 0 then body else body.take n.toNat

/-- HTTP method of a request reaching `PDFHandler`. -/
inductive Method where
  | GET
  | POST
deriving DecidableEq, Repr

/-- An incoming HTTP request as seen by the handler: method, path, the raw
Content-Length header (absent or a string), and the connection body bytes. -/
structure Request where
  method : Method
  path : String
  contentLength : Option String
  body : List Nat
deriving DecidableEq, Repr

/-- A response produced by `_send_json`: status code and the dict it
serialises. -/
structure Response where
  status : Nat
  body : List (String × JVal)
deriving DecidableEq, Repr

/-- `PDFHandler.do_GET`: `/health` answers 200 with the selector state,
every other path answers 400. Never raises and never calls the adapter
(the second component is the trace of `extract_text` invocations). -/
def do_GET (sel : Option String) (path : String) :
    Response × List (List Nat) :=
  if path = "/health" then
    (⟨200, [("status", .str "ok"),
            ("library", match sel with | some s => .str s | none => .null)]⟩, [])
  else
    (⟨400, [("error", .str "Use POST /parse with PDF data")]⟩, [])

/-- The branch condition `"error" in result and result["error"]` of
`do_POST`: the key is present and its value is truthy. -/
def hasTruthyError (d : List (String × JVal)) : Bool :=
  match lookupKey d "error" with
  | some v => truthy v
  | none => false

/-- `PDFHandler.do_POST`: route check, Content-Length parse (which can
raise `ValueError` out of the method — the `.error` case), empty-body
check, then one adapter call and the 500/200 dispatch on
`"error" in result and result["error"]`. The second component records each
`extract_text` invocation's argument. -/
def do_POST (sel : Option String) (lib : PdfLib) (path : String)
    (contentLength : Option String) (body : List Nat) :
    Except String (Response × List (List Nat)) :=
  if path ≠ "/parse" then
    .ok (⟨404, [("error", .str "Unknown endpoint")]⟩, [])
  else do
    let cl ← readContentLength contentLength
    if cl = 0 then
      return (⟨400, [("error", .str "No PDF data")]⟩, [])
    else
      let pdf_bytes := rfileRead body cl
      let result := extract_text sel lib pdf_bytes
      if hasTruthyError result then return (⟨500, result⟩, [pdf_bytes])
      else return (⟨200, result⟩, [pdf_bytes])

/-- Dispatch of one request to the matching handler method. `do_GET` is
total; `do_POST` may raise. -/
def handle (sel : Option String) (lib : PdfLib) (r : Request) :
    Except String (Response × List (List Nat)) :=
  match r.method with
  | .GET => .ok (do_GET sel r.path)
  | .POST => do_POST sel lib r.path r.contentLength r.body

/-- JSON string escaping as in `json.dumps` for the characters relevant to
the model (quote, backslash, ASCII controls). -/
def escChar (c : Char) : String :=
  if c = '"' then "\\\""
  else if c = '\\' then "\\\\"
  else if c = '\n' then "\\n"
  else if c = '\t' then "\\t"
  else if c = '\r' then "\\r"
  else if c.toNat < 32 then
    "\\u00" ++ ⟨[Nat.digitChar (c.toNat / 16), Nat.digitChar (c.toNat % 16)]⟩
  else ⟨[c]⟩

/-- `json.dumps` of a string. -/
def dumpStr (s : String) : String :=
  "\"" ++ String.join (s.toList.map escChar) ++ "\""

/-- `json.dumps` of one value. -/
def dumpVal : JVal → String
  | .str s => dumpStr s
  | .num n => toString n
  | .null => "null"

/-- `json.dumps(data)` on a result dict, preserving insertion order. -/
def dumps (d : List (String × JVal)) : String :=
  "\x7b" ++ joinSep ", " (d.map (fun p => dumpStr p.1 ++ ": " ++ dumpVal p.2)) ++ "\x7d"

/-- The bytes written back on a connection: status line plus serialised
JSON body when the handler method returned, nothing (connection torn down
by the server's error path) when it raised. -/
def responseBytes (r : Except String (Response × List (List Nat))) :
    Option (Nat × String) :=
  match r with
  | .ok (resp, _) => some (resp.status, dumps resp.body)
  | .error _ => none

/-- The request-serving loop over a whole session: requests are handled one
after the other; the only cross-request state is the immutable selection
flag and the library, so the loop is a pure map. -/
def serve (sel : Option String) (lib : PdfLib) (rs : List Request) :
    List (Option (Nat × String)) :=
  rs.map (fun r => responseBytes (handle sel lib r))

instance {ε α : Type} [DecidableEq ε] [DecidableEq α] : DecidableEq (Except ε α)
  | .error x, .error y =>
    if h : x = y then .isTrue (by rw [h]) else .isFalse (by simp [h])
  | .error _, .ok _ => .isFalse (by simp)
  | .ok _, .error _ => .isFalse (by simp)
  | .ok x, .ok y =>
    if h : x = y then .isTrue (by rw [h]) else .isFalse (by simp [h])

/-- When every page extraction succeeds, the page loop returns exactly the
non-empty texts, in page order. -/
lemma collectParts_map_ok (l : List String) :
    collectParts (l.map Except.ok) = .ok (l.filter (fun t => t ≠ "")) := by
  induction l with
  | nil => rfl
  | cons x xs ih =>
    by_cases hx : x = "" <;>
      simp [collectParts, ih, List.filter_cons, hx, Bind.bind, Except.bind,
        Pure.pure, Except.pure]

/-- Every value `extract_text` returns has one of the two shapes built in
the source: the success dict `text, pages, library` (with `library` the
selection string) or the failure dict `error, text, pages` with empty text
and zero pages. -/
lemma extract_text_shape (sel : Option String) (lib : PdfLib) (b : List Nat) :
    (∃ s t p, sel = some s ∧
      extract_text sel lib b =
        [("text", .str t), ("pages", .num p), ("library", .str s)]) ∨
    (∃ e, extract_text sel lib b =
        [("error", .str e), ("text", .str ""), ("pages", .num 0)]) := by
  match sel with
  | none => exact Or.inr ⟨"No PDF library installed", rfl⟩
  | some s =>
    unfold extract_text
    match h : (if s = "pypdf" then extract_text_pypdf lib b
               else extract_text_pdfplumber lib b) with
    | .ok (text, pages) => exact Or.inl ⟨s, pyStrip text, pages, rfl, by simp [h]⟩
    | .error e => exact Or.inr ⟨e, by simp [h]⟩

/-- Whenever the Content-Length header parses, `do_POST` returns a
response rather than raising. -/
lemma do_POST_ok (sel : Option String) (lib : PdfLib) (path : String)
    (cl : Option String) (body : List Nat) (n : Int)
    (h : readContentLength cl = .ok n) :
    ∃ p, do_POST sel lib path cl body = .ok p := by
  unfold do_POST
  by_cases hp : path = "/parse"
  · simp only [hp, ne_eq, not_true_eq_false, if_false, ite_false, h,
      Bind.bind, Except.bind]
    by_cases hn : n = 0 <;> simp only [hn, if_true, if_false, ite_true, ite_false]
    · exact ⟨_, rfl⟩
    · split <;> exact ⟨_, rfl⟩
  · simp only [hp, ne_eq, not_false_eq_true, if_true, ite_true]
    exact ⟨_, rfl⟩

/-- Claim C4: a POST /parse request whose Content-Length is zero or absent
is answered 400 with body `{"error": "No PDF data"}`, and the extraction
adapter is never invoked (the invocation trace is empty). -/
theorem claim_C4 (sel : Option String) (lib : PdfLib) (cl : Option String)
    (b : List Nat) (h : cl = none ∨ readContentLength cl = .ok 0) :
    handle sel lib ⟨.POST, "/parse", cl, b⟩ =
      .ok (⟨400, [("error", .str "No PDF data")]⟩, []) := by
  have h0 : readContentLength cl = .ok 0 := by
    cases h with
    | inl h => rw [h]; rfl
    | inr h => exact h
  simp [handle, do_POST, h0, Bind.bind, Except.bind, Pure.pure, Except.pure]

/-- Witness for C4 at a concrete request with an absent Content-Length. -/
theorem claim_C4_witness :
    handle none ⟨fun _ => .ok []⟩ ⟨.POST, "/parse", none, []⟩ =
      .ok (⟨400, [("error", .str "No PDF data")]⟩, []) :=
  claim_C4 none ⟨fun _ => .ok []⟩ none [] (Or.inl rfl)

/-- Claim C5: with no library selected, `extract_text` returns the fixed
failure dict immediately; the result does not depend on the library
oracle or the bytes, so no decoding is attempted. -/
theorem claim_C5 (lib : PdfLib) (b : List Nat) :
    extract_text none lib b =
      [("error", .str "No PDF library installed"),
       ("text", .str ""), ("pages", .num 0)] :=
  rfl

/-- Claim C6: GET /health always answers 200 with status ok and the
current selection (string or null), for every selector state, and the
adapter-invocation trace is empty. -/
theorem claim_C6 (sel : Option String) (lib : PdfLib) (cl : Option String)
    (b : List Nat) :
    handle sel lib ⟨.GET, "/health", cl, b⟩ =
      .ok (⟨200, [("status", .str "ok"),
        ("library", match sel with | some s => JVal.str s | none => JVal.null)]⟩,
        []) := by
  simp [handle, do_GET]

/-- Claim C7: any GET path other than /health answers 400 with the fixed
hint body, and any POST path other than /parse answers 404 with the fixed
unknown-endpoint body; in both cases the adapter-invocation trace is
empty. -/
theorem claim_C7 (sel : Option String) (lib : PdfLib) (cl : Option String)
    (b : List Nat) (p q : String) (hp : p ≠ "/health") (hq : q ≠ "/parse") :
    handle sel lib ⟨.GET, p, cl, b⟩ =
      .ok (⟨400, [("error", .str "Use POST /parse with PDF data")]⟩, []) ∧
    handle sel lib ⟨.POST, q, cl, b⟩ =
      .ok (⟨404, [("error", .str "Unknown endpoint")]⟩, []) := by
  constructor
  · simp [handle, do_GET, hp]
  · simp [handle, do_POST, hq]

/-- Witness for C7 at the concrete stray path "/x". -/
theorem claim_C7_witness :
    handle none ⟨fun _ => .ok []⟩ ⟨.GET, "/x", none, []⟩ =
      .ok (⟨400, [("error", .str "Use POST /parse with PDF data")]⟩, []) ∧
    handle none ⟨fun _ => .ok []⟩ ⟨.POST, "/x", none, []⟩ =
      .ok (⟨404, [("error", .str "Unknown endpoint")]⟩, []) :=
  claim_C7 none ⟨fun _ => .ok []⟩ none [] "/x" "/x" (by decide) (by decide)

/-- Claim C8: the serving loop is a pure map over requests — for a fixed
selection flag and library, positions of a session holding identical
requests receive byte-identical status/JSON responses; no hidden state
accumulates between requests. -/
theorem claim_C8 (sel : Option String) (lib : PdfLib) (rs : List Request)
    (i j : Nat) (h : rs[i]? = rs[j]?) :
    (serve sel lib rs)[i]? = (serve sel lib rs)[j]? := by
  simp only [serve, List.getElem?_map, h]

/-- Library used by the C8 witness. -/
def witLib8 : PdfLib := ⟨fun _ => .ok [.ok "x"]⟩

/-- Request repeated in the C8 witness session. -/
def witReq8 : Request := ⟨.POST, "/parse", some "1", [3]⟩

/-- Witness for C8: a three-request session whose first and third requests
are identical gets identical first and third responses. -/
theorem claim_C8_witness :
    (serve (some "pypdf") witLib8 [witReq8, ⟨.GET, "/health", none, []⟩, witReq8])[0]? =
    (serve (some "pypdf") witLib8 [witReq8, ⟨.GET, "/health", none, []⟩, witReq8])[2]? :=
  claim_C8 (some "pypdf") witLib8
    [witReq8, ⟨.GET, "/health", none, []⟩, witReq8] 0 2 (by decide)

/-- Claim C10: every `extract_text` result is either the success dict
(`text` string, `pages` number, `library` the selection string, no
`error` key) or the failure dict (`error` string, `text = ""`,
`pages = 0`, no `library` key); no result carries both a `library` and an
`error` key. -/
theorem claim_C10 (sel : Option String) (lib : PdfLib) (b : List Nat) :
    ((∃ s t p, sel = some s ∧
        extract_text sel lib b =
          [("text", .str t), ("pages", .num p), ("library", .str s)] ∧
        lookupKey (extract_text sel lib b) "error" = none) ∨
     (∃ e, extract_text sel lib b =
          [("error", .str e), ("text", .str ""), ("pages", .num 0)] ∧
        lookupKey (extract_text sel lib b) "library" = none)) ∧
    ¬ ((lookupKey (extract_text sel lib b) "library").isSome ∧
       (lookupKey (extract_text sel lib b) "error").isSome) := by
  rcases extract_text_shape sel lib b with ⟨s, t, p, hs, he⟩ | ⟨e, he⟩
  · rw [he]
    refine ⟨Or.inl ⟨s, t, p, hs, rfl, ?_⟩, ?_⟩ <;>
      simp [lookupKey, List.find?]
  · rw [he]
    refine ⟨Or.inr ⟨e, rfl, ?_⟩, ?_⟩ <;>
      simp [lookupKey, List.find?]

/-- Claim C2: when every page extraction succeeds, the result text is the
non-empty page texts in page order joined with a double line-break and
stripped, and `pages` is the document page count regardless of how many
segments were joined. -/
theorem claim_C2 (s : String) (lib : PdfLib) (b : List Nat)
    (texts : List String) (h : lib.openDoc b = .ok (texts.map Except.ok)) :
    extract_text (some s) lib b =
      [("text", .str (pyStrip (joinSep "\n\n"
          (texts.filter (fun t => t ≠ ""))))),
       ("pages", .num texts.length),
       ("library", .str s)] := by
  by_cases hs : s = "pypdf" <;>
    simp [extract_text, extract_text_pypdf, extract_text_pdfplumber, hs, h,
      collectParts_map_ok, Bind.bind, Except.bind, Pure.pure, Except.pure]

/-- Library used by the C2 witness: three pages, the middle one empty. -/
def witLib2 : PdfLib := ⟨fun _ => .ok [.ok " a", .ok "", .ok "b "]⟩

/-- Witness for C2: three pages with an empty middle page give the two
non-empty texts joined by a double line-break, stripped, with pages = 3. -/
theorem claim_C2_witness :
    extract_text (some "pypdf") witLib2 [0] =
      [("text", .str "a\n\nb"), ("pages", .num 3),
       ("library", .str "pypdf")] :=
  (claim_C2 "pypdf" witLib2 [0] [" a", "", "b "] rfl).trans (by decide)

/-- Library that raises an exception with empty message text while opening
the document (Python `str(e)` can be `""`, e.g. for `ValueError()`). -/
def cexLib1 : PdfLib := ⟨fun _ => .error ""⟩

/-- Counterexample to C1 as stated: the backing library raises while
opening, `extract_text` duly returns the failure dict — but because the
exception's message text is empty, `"error" in result and result["error"]`
is falsy and the handler answers 200, not 500. -/
theorem claim_C1_counterexample :
    extract_text (some "pypdf") cexLib1 [0] =
      [("error", .str ""), ("text", .str ""), ("pages", .num 0)] ∧
    handle (some "pypdf") cexLib1 ⟨.POST, "/parse", some "1", [0]⟩ =
      .ok (⟨200, [("error", .str ""), ("text", .str ""), ("pages", .num 0)]⟩,
        [[0]]) ∧
    ¬ handle (some "pypdf") cexLib1 ⟨.POST, "/parse", some "1", [0]⟩ =
      .ok (⟨500, extract_text (some "pypdf") cexLib1 [0]⟩, [[0]]) := by
  refine ⟨rfl, rfl, ?_⟩
  decide

/-- Claim C1 as amended: when the selected library raises with message
`msg`, `extract_text` catches it and returns the failure dict, the failure
never propagates (the handler still returns a response), and the handler
answers 500 exactly when `msg` is non-empty — an empty message text slips
through the truthiness test and is answered 200. -/
theorem claim_C1_amended (s : String) (lib : PdfLib) (b : List Nat)
    (msg : String)
    (h : (if s = "pypdf" then extract_text_pypdf lib b
          else extract_text_pdfplumber lib b) = .error msg) :
    extract_text (some s) lib b =
      [("error", .str msg), ("text", .str ""), ("pages", .num 0)] ∧
    ∀ (cl : Option String) (n : Int) (body : List Nat),
      readContentLength cl = .ok n → n ≠ 0 → rfileRead body n = b →
      handle (some s) lib ⟨.POST, "/parse", cl, body⟩ =
        .ok (⟨if msg = "" then 200 else 500,
              [("error", .str msg), ("text", .str ""), ("pages", .num 0)]⟩,
          [b]) := by
  have h1 : extract_text (some s) lib b =
      [("error", .str msg), ("text", .str ""), ("pages", .num 0)] := by
    simp [extract_text, h]
  refine ⟨h1, ?_⟩
  intro cl n body hcl hn hb
  by_cases hm : msg = "" <;>
    simp [handle, do_POST, hcl, hn, hb, h1, hasTruthyError, lookupKey,
      List.find?, truthy, hm, Bind.bind, Except.bind, Pure.pure, Except.pure]

/-- Library used by the C1 witness: raises with a non-empty message. -/
def witLib1 : PdfLib := ⟨fun _ => .error "boom"⟩

/-- Witness for C1 (amended) at a library raising "boom": the failure dict
is returned and the handler answers 500 with it. -/
theorem claim_C1_amended_witness :
    extract_text (some "pypdf") witLib1 [7, 8] =
      [("error", .str "boom"), ("text", .str ""), ("pages", .num 0)] ∧
    handle (some "pypdf") witLib1 ⟨.POST, "/parse", some "2", [7, 8]⟩ =
      .ok (⟨500, [("error", .str "boom"), ("text", .str ""),
        ("pages", .num 0)]⟩, [[7, 8]]) := by
  have h := claim_C1_amended "pypdf" witLib1 [7, 8] "boom" rfl
  exact ⟨h.1, (h.2 (some "2") 2 [7, 8] (by decide) (by decide)
    (by decide)).trans (by decide)⟩

/-- Library whose single page raises an exception with empty message text
during `page.extract_text()`. -/
def cexLib3 : PdfLib := ⟨fun _ => .ok [.error ""]⟩

/-- Counterexample to C3 as stated: a per-page exception with empty
message text produces a result with an (empty) error field; the handler
takes the "otherwise" branch and answers 200, but the body's fields are
`error, text, pages`, not the claimed `text, pages, library`. -/
theorem claim_C3_counterexample :
    handle (some "pypdf") cexLib3 ⟨.POST, "/parse", some "1", [0]⟩ =
      .ok (⟨200, [("error", .str ""), ("text", .str ""), ("pages", .num 0)]⟩,
        [[0]]) ∧
    ¬ keysOf (extract_text (some "pypdf") cexLib3 [0]) =
        ["text", "pages", "library"] := by
  refine ⟨rfl, ?_⟩
  decide

/-- Claim C3 as amended: a POST /parse request with a parsed non-zero
Content-Length invokes the adapter exactly once on the read body bytes and
answers with the full result dict as body, status 500 exactly when the
result's error field is present and non-empty and 200 otherwise; the 200
body has fields `text, pages, library` whenever the result carries no
error key (a result with an empty-string error keeps fields
`error, text, pages`). -/
theorem claim_C3_amended (sel : Option String) (lib : PdfLib)
    (cl : Option String) (b : List Nat) (n : Int)
    (hcl : readContentLength cl = .ok n) (hn : n ≠ 0) :
    handle sel lib ⟨.POST, "/parse", cl, b⟩ =
      .ok (⟨if hasTruthyError (extract_text sel lib (rfileRead b n))
              then 500 else 200,
            extract_text sel lib (rfileRead b n)⟩, [rfileRead b n]) ∧
    (lookupKey (extract_text sel lib (rfileRead b n)) "error" = none →
      keysOf (extract_text sel lib (rfileRead b n)) =
        ["text", "pages", "library"]) := by
  constructor
  · by_cases he : hasTruthyError (extract_text sel lib (rfileRead b n)) <;>
      simp [handle, do_POST, hcl, hn, he, Bind.bind, Except.bind,
        Pure.pure, Except.pure]
  · intro hno
    rcases extract_text_shape sel lib (rfileRead b n) with ⟨s, t, p, _, he⟩ | ⟨e, he⟩
    · rw [he]; rfl
    · rw [he] at hno
      simp [lookupKey, List.find?] at hno

/-- Library used by the C3 witness: one page with text. -/
def witLib3 : PdfLib := ⟨fun _ => .ok [.ok "hi"]⟩

/-- Witness for C3 (amended) at a successful single-page extraction: one
adapter call on the read byte, 200, success dict. -/
theorem claim_C3_amended_witness :
    handle (some "pypdf") witLib3 ⟨.POST, "/parse", some "1", [9]⟩ =
      .ok (⟨200, [("text", .str "hi"), ("pages", .num 1),
        ("library", .str "pypdf")]⟩, [[9]]) := by
  have h := (claim_C3_amended (some "pypdf") witLib3 (some "1") [9] 1
    (by decide) (by decide)).1
  exact h.trans (by decide)

/-- Library used by the C9 artifacts. -/
def cexLib9 : PdfLib := ⟨fun _ => .ok []⟩

/-- Counterexample to C9 as stated: a POST /parse request with the
non-numeric Content-Length header "abc" makes `int()` raise `ValueError`
out of `do_POST`; no JSON error body is produced by the handler for that
request. -/
theorem claim_C9_counterexample :
    handle (some "pypdf") cexLib9 ⟨.POST, "/parse", some "abc", [1]⟩ =
      .error ("invalid literal for int() with base 10: "
        ++ ⟨['\x27']⟩ ++ "abc" ++ ⟨['\x27']⟩) := by
  decide

/-- Claim C9 as amended: for every request that is a GET, or whose
Content-Length header parses as an integer (absence included), the handler
methods return an HTTP response and never raise; only a POST with a
malformed Content-Length raises out of `do_POST`. -/
theorem claim_C9_amended (sel : Option String) (lib : PdfLib) (r : Request)
    (h : r.method = .GET ∨ ∃ n, readContentLength r.contentLength = .ok n) :
    ∃ p, handle sel lib r = .ok p := by
  obtain ⟨m, path, cl, body⟩ := r
  cases m with
  | GET => exact ⟨_, rfl⟩
  | POST =>
    rcases h with h' | ⟨n, hn⟩
    · exact Method.noConfusion h'
    · exact do_POST_ok sel lib path cl body n hn

/-- Witness for C9 (amended) at a POST with the well-formed Content-Length
"1". -/
theorem claim_C9_amended_witness :
    ∃ p, handle (some "pypdf") cexLib9 ⟨.POST, "/parse", some "1", [1]⟩ =
      .ok p :=
  claim_C9_amended (some "pypdf") cexLib9 ⟨.POST, "/parse", some "1", [1]⟩
    (Or.inr ⟨1, by decide⟩)

end PdfService
